import Mathlib

/-!
Verification development for the ChillMCP agent-state core (src/main.py).

The Python source is shallowly embedded: Python integers become Lean Int,
Python strings become Lean String (a wrapper around List Char in this
toolchain), fallible operations return Except, and every call to the
pseudo-random source (random.randint, random.choice) is modelled by an
explicit parameter carrying the drawn value, constrained by the hypothesis
the library guarantees (randint a b returns a value in the closed interval
from a to b when a is at most b, and raises ValueError otherwise;
random.choice picks an index below the list length).
-/

deriving instance DecidableEq for Except

/-- State record of AgentStateManager (src/main.py lines 22-31): the two
gauges together with the immutable configuration. The asyncio lock and the
background task handles carry no gauge information and are not represented;
every embedded operation below corresponds to one critical section of the
source, so the serialization the lock provides is the sequential composition
of these operations. -/
structure AgentStateManager where
  stress_level : Int
  boss_alert_level : Int
  boss_alertness : Int
  boss_alertness_cooldown : Int
deriving Repr, DecidableEq

/-- Constructor body of AgentStateManager.__init__: stress starts at 50,
boss alert at 0, configuration stored unchanged (no validation happens in
the constructor itself). -/
def AgentStateManager.make (boss_alertness boss_alertness_cooldown : Int) :
    AgentStateManager :=
  { stress_level := 50
    boss_alert_level := 0
    boss_alertness := boss_alertness
    boss_alertness_cooldown := boss_alertness_cooldown }

/-- Argument validation of parse_arguments (src/main.py lines 423-432):
boss_alertness must lie in the closed interval from 0 to 100 and
boss_alertness_cooldown must be positive, otherwise parser.error aborts
with the given message before any state exists. -/
def parse_arguments (boss_alertness boss_alertness_cooldown : Int) :
    Except String (Int × Int) :=
  if ¬ (0 ≤ boss_alertness ∧ boss_alertness ≤ 100) then
    Except.error "--boss_alertness must be between 0 and 100"
  else if boss_alertness_cooldown ≤ 0 then
    Except.error "--boss_alertness_cooldown must be positive"
  else
    Except.ok (boss_alertness, boss_alertness_cooldown)

/-- The construction path of the program entry point (both server and
interactive mode): parse_arguments validates the configuration, and only a
validated configuration reaches AgentStateManager. -/
def initialize_state_manager (boss_alertness boss_alertness_cooldown : Int) :
    Except String AgentStateManager :=
  (parse_arguments boss_alertness boss_alertness_cooldown).map
    (fun p => AgentStateManager.make p.1 p.2)

/-- AgentStateManager.reduce_stress (src/main.py lines 54-59). The argument
r models the value returned by random.randint(min_reduction, max_reduction);
when min_reduction exceeds max_reduction, randint raises ValueError before
the gauge is touched, which the embedding renders as an error result
carrying no successor state. On success the method stores
max 0 (stress - r) and returns the nominal draw r. -/
def AgentStateManager.reduce_stress (st : AgentStateManager)
    (min_reduction max_reduction r : Int) :
    Except String (Int × AgentStateManager) :=
  if min_reduction > max_reduction then
    Except.error "empty range for randrange"
  else
    Except.ok (r, { st with stress_level := max 0 (st.stress_level - r) })

/-- AgentStateManager.maybe_increase_boss_alert (src/main.py lines 61-68).
The argument draw models random.randint(1, 100). If the draw is at most
boss_alertness and the alert level is below 5 the level goes up by one and
the method returns true; in every other case it returns false with the
state unchanged. -/
def AgentStateManager.maybe_increase_boss_alert (st : AgentStateManager)
    (draw : Int) : Bool × AgentStateManager :=
  if draw ≤ st.boss_alertness then
    if st.boss_alert_level < 5 then
      (true, { st with boss_alert_level := st.boss_alert_level + 1 })
    else
      (false, st)
  else
    (false, st)

/-- AgentStateManager.apply_boss_penalty_if_needed (src/main.py lines
70-75): reads the alert level once and sleeps 20 seconds when it is at
least 5. The state is untouched; the embedding returns whether the penalty
delay fires. -/
def AgentStateManager.apply_boss_penalty_if_needed (st : AgentStateManager) :
    Bool :=
  st.boss_alert_level ≥ 5

/-- AgentStateManager.get_state (src/main.py lines 77-83): snapshot of the
two gauges, no mutation. -/
def AgentStateManager.get_state (st : AgentStateManager) : Int × Int :=
  (st.stress_level, st.boss_alert_level)

/-- One iteration body of the stress drift loop _auto_increase_stress
(src/main.py lines 38-45): after the 60 second sleep, if stress is below
100 it becomes min 100 (stress + 1), otherwise nothing changes. -/
def AgentStateManager.auto_increase_stress_tick (st : AgentStateManager) :
    AgentStateManager :=
  if st.stress_level < 100 then
    { st with stress_level := min 100 (st.stress_level + 1) }
  else
    st

/-- One iteration body of the alert cooldown loop _auto_decrease_boss_alert
(src/main.py lines 46-52): after the configured sleep, if the alert level
is positive it becomes max 0 (level - 1), otherwise nothing changes. -/
def AgentStateManager.auto_decrease_boss_alert_tick (st : AgentStateManager) :
    AgentStateManager :=
  if st.boss_alert_level > 0 then
    { st with boss_alert_level := max 0 (st.boss_alert_level - 1) }
  else
    st

/-- Decimal rendering of a natural number, as produced by Python string
interpolation of a nonnegative int (and by Nat.repr): the digit list of the
standard library. -/
def pyNatStr (n : Nat) : String :=
  String.mk (Nat.toDigits 10 n)

/-- Decimal rendering of a Python int inside an f-string: a minus sign
followed by the digits when negative, the digits alone otherwise. -/
def pyIntStr (n : Int) : String :=
  if n < 0 then "-" ++ pyNatStr n.natAbs else pyNatStr n.toNat

/-- One entry of the MCP content list built by format_response: the Python
dict with keys type and text. -/
structure McpContent where
  type : String
  text : String
deriving Repr, DecidableEq

/-- format_response (src/main.py lines 90-111): builds the text block
(creative text, blank line, break summary line, stress line, alert line)
and wraps it as a one element content list of a single text item. -/
def format_response (activity_summary creative_text : String)
    (stress_level boss_alert_level : Int) : List McpContent :=
  let text_content :=
    creative_text ++ "\n\n" ++
    "Break Summary: " ++ activity_summary ++ "\n" ++
    "Stress Level: " ++ pyIntStr stress_level ++ "\n" ++
    "Boss Alert Level: " ++ pyIntStr boss_alert_level
  [{ type := "text", text := text_content }]

/-- The random draws consumed by one execute_break_tool invocation:
the randint(min, max) value of the stress reduction, the randint(1, 100)
value of the alert roll, and the index random.choice picks in the creative
message list. -/
structure BreakDraws where
  reduction_draw : Int
  alert_draw : Int
  message_index : Nat
deriving Repr, DecidableEq

/-- execute_break_tool (src/main.py lines 114-160), state threaded
explicitly in place of the global state_manager: step 1 penalty gate,
step 2 reduce_stress, step 3 maybe_increase_boss_alert, step 4 get_state,
step 5 creative message choice with the noticed suffix when the roll fired,
step 7 format_response. A ValueError out of reduce_stress propagates to the
caller, leaving the state as it was. The returned pair is the MCP content
list together with the successor state. -/
def execute_break_tool (st : AgentStateManager)
    (min_stress_reduction max_stress_reduction : Int)
    (activity_summary : String) (creative_messages : List String)
    (d : BreakDraws) :
    Except String (List McpContent × AgentStateManager) :=
  match st.reduce_stress min_stress_reduction max_stress_reduction
      d.reduction_draw with
  | Except.error e => Except.error e
  | Except.ok (_reduction, st1) =>
    let rolled := st1.maybe_increase_boss_alert d.alert_draw
    let boss_increased := rolled.1
    let st2 := rolled.2
    let state := st2.get_state
    let creative_text :=
      creative_messages.getD d.message_index "" ++
        (if boss_increased then " (Your boss seems to have noticed...)"
         else "")
    Except.ok (format_response activity_summary creative_text state.1 state.2,
      st2)

/-- State transition of one execute_break_tool invocation, described by
its reduction range and its random draws (the summary and message
arguments do not touch the state). On a ValueError the state is left
unchanged, as in the source. -/
def break_step (st : AgentStateManager) (c : Int × Int × BreakDraws) :
    AgentStateManager :=
  match execute_break_tool st c.1 c.2.1 "" [] c.2.2 with
  | Except.ok (_, st2) => st2
  | Except.error _ => st

/-- Fold of execute_break_tool over a list of invocations. -/
def run_breaks (st : AgentStateManager) :
    List (Int × Int × BreakDraws) → AgentStateManager
  | [] => st
  | c :: rest => run_breaks (break_step st c) rest

/-- The penalty gate evaluations a list of invocations performs, one at
the entry of each invocation, in order. -/
def break_gate_flags (st : AgentStateManager) :
    List (Int × Int × BreakDraws) → List Bool
  | [] => []
  | c :: rest =>
    st.apply_boss_penalty_if_needed :: break_gate_flags (break_step st c) rest

/-- One observable state operation of an execute_break_tool invocation,
used to record the order in which the executor touches the state. -/
inductive ExecStep where
  | penaltyGate (fired : Bool)
  | stressReduction (reduction : Int)
  | alertRoll (raised : Bool)
  | stateSnapshot (stress boss : Int)
deriving Repr, DecidableEq

/-- Instrumented transcript of one execute_break_tool invocation: the same
sequence of state operations as execute_break_tool, each recorded in the
order the source performs it (penalty gate first, then the stress
reduction, then the alert roll, then the snapshot). -/
def execute_break_steps (st : AgentStateManager)
    (min_stress_reduction max_stress_reduction : Int) (d : BreakDraws) :
    Except String (List ExecStep) :=
  let fired := st.apply_boss_penalty_if_needed
  match st.reduce_stress min_stress_reduction max_stress_reduction
      d.reduction_draw with
  | Except.error e => Except.error e
  | Except.ok (reduction, st1) =>
    let rolled := st1.maybe_increase_boss_alert d.alert_draw
    let st2 := rolled.2
    let state := st2.get_state
    Except.ok [ExecStep.penaltyGate fired,
      ExecStep.stressReduction reduction,
      ExecStep.alertRoll rolled.1,
      ExecStep.stateSnapshot state.1 state.2]

/-- One operation of the state interface, as named by the specification:
a stress reduction with its range and draw, an alert roll with its draw,
a snapshot, one stress drift tick, one alert cooldown tick. -/
inductive Op where
  | reduceStress (min_reduction max_reduction r : Int)
  | maybeRaiseAlert (draw : Int)
  | snapshot
  | stressTick
  | alertTick
deriving Repr, DecidableEq

/-- The constraint the random source and the caller guarantee for an
operation: a reduction range with nonnegative lower end and a draw inside
it, an alert draw inside the randint(1, 100) range; the remaining
operations take no input. -/
def Op.valid : Op → Prop
  | Op.reduceStress min_reduction max_reduction r =>
      0 ≤ min_reduction ∧ min_reduction ≤ r ∧ r ≤ max_reduction
  | Op.maybeRaiseAlert draw => 1 ≤ draw ∧ draw ≤ 100
  | _ => True

instance : DecidablePred Op.valid := by
  intro op
  cases op <;> simp only [Op.valid] <;> infer_instance

/-- State transition of one operation. A reduce_stress call whose range is
invalid raises before mutating, so the state is kept. -/
def Op.apply (st : AgentStateManager) : Op → AgentStateManager
  | Op.reduceStress min_reduction max_reduction r =>
      match st.reduce_stress min_reduction max_reduction r with
      | Except.ok (_, st2) => st2
      | Except.error _ => st
  | Op.maybeRaiseAlert draw => (st.maybe_increase_boss_alert draw).2
  | Op.snapshot => st
  | Op.stressTick => st.auto_increase_stress_tick
  | Op.alertTick => st.auto_decrease_boss_alert_tick

/-- Iterated application of a sequence of operations. -/
def runOps (st : AgentStateManager) : List Op → AgentStateManager
  | [] => st
  | op :: rest => runOps (Op.apply st op) rest

/-- The two gauge invariants of the data model: stress within 0 and 100,
alert level within 0 and 5. -/
def GaugeInv (st : AgentStateManager) : Prop :=
  0 ≤ st.stress_level ∧ st.stress_level ≤ 100 ∧
    0 ≤ st.boss_alert_level ∧ st.boss_alert_level ≤ 5

instance : DecidablePred GaugeInv := by
  intro st
  simp only [GaugeInv]
  infer_instance

/-- The lines of a character list, splitting at every newline character:
the standard reading of a text block as a list of lines (the empty text has
one empty line, and every newline ends the line before it). -/
def consHead (c : Char) : List (List Char) → List (List Char)
  | [] => [[c]]
  | l :: ls => (c :: l) :: ls

def splitLines : List Char → List (List Char)
  | [] => [[]]
  | c :: rest =>
    if c = '\x0a' then [] :: splitLines rest else consHead c (splitLines rest)

/-- A character list with no newline character in it. -/
def NoNewline (cs : List Char) : Prop := '\x0a' ∉ cs

instance : DecidablePred NoNewline := by
  intro cs
  simp only [NoNewline]
  infer_instance

theorem splitLines_noNewline (cs : List Char) (h : NoNewline cs) :
    splitLines cs = [cs] := by
  induction cs with
  | nil => rfl
  | cons c rest ih =>
    have hc : c ≠ '\x0a' := by
      intro hc; exact h (hc ▸ List.mem_cons_self c rest)
    have hrest : NoNewline rest := fun hm => h (List.mem_cons_of_mem c hm)
    rw [splitLines, if_neg hc, ih hrest]
    rfl

theorem splitLines_append_newline (a b : List Char) (h : NoNewline a) :
    splitLines (a ++ '\x0a' :: b) = a :: splitLines b := by
  induction a with
  | nil =>
    rw [List.nil_append, splitLines, if_pos rfl]
  | cons c rest ih =>
    have hc : c ≠ '\x0a' := by
      intro hc; exact h (hc ▸ List.mem_cons_self c rest)
    have hrest : NoNewline rest := fun hm => h (List.mem_cons_of_mem c hm)
    rw [List.cons_append, splitLines, if_neg hc, ih hrest]
    rfl

theorem digitChar_lt_ten_ne_newline : ∀ k, k < 10 → Nat.digitChar k ≠ '\x0a' := by
  decide

theorem toDigitsCore_noNewline (fuel n : Nat) (ds : List Char)
    (h : NoNewline ds) : NoNewline (Nat.toDigitsCore 10 fuel n ds) := by
  induction fuel generalizing n ds with
  | zero => exact h
  | succ fuel ih =>
    have hd : NoNewline (Nat.digitChar (n % 10) :: ds) := by
      intro hm
      rcases List.mem_cons.mp hm with h1 | h2
      · exact digitChar_lt_ten_ne_newline (n % 10)
          (Nat.mod_lt n (by decide)) h1.symm
      · exact h h2
    show NoNewline (if n / 10 = 0 then Nat.digitChar (n % 10) :: ds
      else Nat.toDigitsCore 10 fuel (n / 10) (Nat.digitChar (n % 10) :: ds))
    by_cases hz : n / 10 = 0
    · rw [if_pos hz]; exact hd
    · rw [if_neg hz]; exact ih (n / 10) (Nat.digitChar (n % 10) :: ds) hd

theorem pyNatStr_noNewline (n : Nat) : NoNewline (pyNatStr n).data := by
  have : NoNewline ([] : List Char) := by intro hm; cases hm
  simpa [pyNatStr, Nat.toDigits] using
    toDigitsCore_noNewline (n + 1) n [] this

theorem pyIntStr_noNewline (n : Int) : NoNewline (pyIntStr n).data := by
  by_cases hn : n < 0
  · intro hm
    simp only [pyIntStr, if_pos hn, String.data_append] at hm
    rcases List.mem_append.mp hm with h1 | h2
    · exact absurd h1 (by decide)
    · exact pyNatStr_noNewline n.natAbs h2
  · intro hm
    simp only [pyIntStr, if_neg hn] at hm
    exact pyNatStr_noNewline n.toNat hm

theorem noNewline_append (a b : List Char) (ha : NoNewline a)
    (hb : NoNewline b) : NoNewline (a ++ b) := by
  intro hm
  rcases List.mem_append.mp hm with h | h
  · exact ha h
  · exact hb h

theorem splitLines_five_block (a b c d2 : List Char) (ha : NoNewline a)
    (hb : NoNewline b) (hc : NoNewline c) (hd : NoNewline d2) :
    splitLines (a ++ '\x0a' :: '\x0a' ::
        (b ++ '\x0a' :: (c ++ '\x0a' :: d2))) = [a, [], b, c, d2] := by
  rw [splitLines_append_newline _ _ ha, splitLines, if_pos rfl,
    splitLines_append_newline _ _ hb, splitLines_append_newline _ _ hc,
    splitLines_noNewline _ hd]

example : splitLines ("ab\n\ncd" : String).data = [['a','b'], [], ['c','d']] := by decide
example : pyIntStr 38 = "38" := by decide
example : pyIntStr (-7) = "-7" := by decide

example :
    ((AgentStateManager.make 50 300).reduce_stress 10 30 12) =
      Except.ok (12, { AgentStateManager.make 50 300 with stress_level := 38 }) := by
  decide

example : ((AgentStateManager.make 50 300).maybe_increase_boss_alert 40).1 = true := by
  decide

/-- Claim C2: a configuration with alertness outside the closed interval
from 0 to 100, or with a nonpositive cooldown, is rejected synchronously by
the argument validation on the construction path of the program, with a
validation error; no AgentStateManager is ever produced from it. -/
theorem config_invalid_rejected (a c : Int)
    (h : a < 0 ∨ 100 < a ∨ c ≤ 0) :
    (∃ e, initialize_state_manager a c = Except.error e) ∧
      ∀ st, initialize_state_manager a c ≠ Except.ok st := by
  have herr : ∃ e, parse_arguments a c = Except.error e := by
    by_cases hr : 0 ≤ a ∧ a ≤ 100
    · have hc : c ≤ 0 := by
        rcases h with h | h | h
        · exact absurd h (by omega)
        · exact absurd h (by omega)
        · exact h
      exact ⟨_, by rw [parse_arguments, if_neg (not_not_intro hr), if_pos hc]⟩
    · exact ⟨_, by rw [parse_arguments, if_pos hr]⟩
  obtain ⟨e, he⟩ := herr
  constructor
  · exact ⟨e, by rw [initialize_state_manager, he]; rfl⟩
  · intro st hok
    rw [initialize_state_manager, he] at hok
    exact Except.noConfusion hok

/-- Witness for C2 at the concrete invalid configuration of alertness -1
and cooldown 300. -/
theorem config_invalid_rejected_witness :
    ((-1 : Int) < 0 ∨ 100 < (-1 : Int) ∨ (300 : Int) ≤ 0) ∧
      ((∃ e, initialize_state_manager (-1) 300 = Except.error e) ∧
        ∀ st, initialize_state_manager (-1) 300 ≠ Except.ok st) :=
  ⟨Or.inl (by decide), config_invalid_rejected (-1) 300 (Or.inl (by decide))⟩

/-- Claim C3: with the configured probability within 0 and 100 and a draw
within the randint range 1 to 100, the alert roll increments the level by
exactly one and returns true precisely when the draw is at most the
probability and the level is below 5; in every other case, including a
successful draw at level 5, the state is unchanged and false is returned,
and the level never goes past 5. -/
theorem maybe_raise_alert_spec (st : AgentStateManager) (draw : Int)
    (hp0 : 0 ≤ st.boss_alertness) (hp1 : st.boss_alertness ≤ 100)
    (h1 : 1 ≤ draw) (h2 : draw ≤ 100) :
    (draw ≤ st.boss_alertness ∧ st.boss_alert_level < 5 →
      st.maybe_increase_boss_alert draw =
        (true, { st with boss_alert_level := st.boss_alert_level + 1 })) ∧
    (¬ (draw ≤ st.boss_alertness ∧ st.boss_alert_level < 5) →
      st.maybe_increase_boss_alert draw = (false, st)) ∧
    (st.boss_alert_level ≤ 5 →
      (st.maybe_increase_boss_alert draw).2.boss_alert_level ≤ 5) := by
  unfold AgentStateManager.maybe_increase_boss_alert
  by_cases hd : draw ≤ st.boss_alertness
  · by_cases ha : st.boss_alert_level < 5
    · refine ⟨fun _ => by rw [if_pos hd, if_pos ha], fun hn => ?_, fun _ => ?_⟩
      · exact absurd ⟨hd, ha⟩ hn
      · rw [if_pos hd, if_pos ha]
        show st.boss_alert_level + 1 ≤ 5
        omega
    · refine ⟨fun hy => absurd hy.2 ha, fun _ => by rw [if_pos hd, if_neg ha],
        fun h5 => ?_⟩
      rw [if_pos hd, if_neg ha]
      exact h5
  · refine ⟨fun hy => absurd hy.1 hd, fun _ => by rw [if_neg hd],
      fun h5 => ?_⟩
    rw [if_neg hd]
    exact h5

/-- Witness for C3 at a concrete state with alertness 50, level 0 and
draw 40: the roll fires and the level becomes 1. -/
theorem maybe_raise_alert_spec_witness :
    (0 : Int) ≤ 50 ∧ (50 : Int) ≤ 100 ∧ (1 : Int) ≤ 40 ∧ (40 : Int) ≤ 100 ∧
      (((40 : Int) ≤ (50 : Int) ∧ (0 : Int) < 5 →
        AgentStateManager.maybe_increase_boss_alert ⟨50, 0, 50, 300⟩ 40 =
          (true, ⟨50, 1, 50, 300⟩)) ∧
      (¬ ((40 : Int) ≤ (50 : Int) ∧ (0 : Int) < 5) →
        AgentStateManager.maybe_increase_boss_alert ⟨50, 0, 50, 300⟩ 40 =
          (false, ⟨50, 0, 50, 300⟩)) ∧
      ((0 : Int) ≤ 5 →
        (AgentStateManager.maybe_increase_boss_alert
            ⟨50, 0, 50, 300⟩ 40).2.boss_alert_level ≤ 5)) :=
  ⟨by decide, by decide, by decide, by decide,
    maybe_raise_alert_spec ⟨50, 0, 50, 300⟩ 40 (by decide) (by decide)
      (by decide) (by decide)⟩

/-- Claim C4: with a valid range (nonnegative lower end, at most the upper
end) and a draw r in it, reduce_stress succeeds, stores max 0 of the old
stress minus r, and returns the nominal draw r itself, inside the range,
even when the actual drop was clamped at 0. -/
theorem reduce_stress_spec (st : AgentStateManager) (mn mx r : Int)
    (h0 : 0 ≤ mn) (h1 : mn ≤ r) (h2 : r ≤ mx) :
    st.reduce_stress mn mx r =
      Except.ok (r, { st with stress_level := max 0 (st.stress_level - r) }) ∧
    mn ≤ r ∧ r ≤ mx := by
  refine ⟨?_, h1, h2⟩
  rw [AgentStateManager.reduce_stress, if_neg (by omega)]

/-- Witness for C4 at stress 50 and a draw of 12 in the range 10 to 30:
the new stress is 38 and the reported reduction is 12; a second use of the
theorem is not needed since the clamped case is covered by the same
max formula. -/
theorem reduce_stress_spec_witness :
    (0 : Int) ≤ 10 ∧ (10 : Int) ≤ 12 ∧ (12 : Int) ≤ 30 ∧
      (AgentStateManager.reduce_stress ⟨50, 0, 50, 300⟩ 10 30 12 =
        Except.ok (12, ⟨38, 0, 50, 300⟩) ∧ (10 : Int) ≤ 12 ∧ (12 : Int) ≤ 30) := by
  refine ⟨by decide, by decide, by decide, ?_⟩
  have h := reduce_stress_spec ⟨50, 0, 50, 300⟩ 10 30 12 (by decide)
    (by decide) (by decide)
  simpa using h

/-- Claim C7: a call of reduce_stress with the lower end above the upper
end raises the ValueError of randint synchronously: no successor state is
ever returned, the state after the failed operation is the old state, and
an executor invocation with such a range propagates the error without
returning any content or successor state. -/
theorem reduce_stress_min_gt_max_rejected (st : AgentStateManager)
    (mn mx r : Int) (summary : String) (msgs : List String) (d : BreakDraws)
    (h : mn > mx) :
    (∀ red st2, st.reduce_stress mn mx r ≠ Except.ok (red, st2)) ∧
    Op.apply st (Op.reduceStress mn mx r) = st ∧
    execute_break_tool st mn mx summary msgs d =
      Except.error "empty range for randrange" := by
  have he : ∀ q : Int, st.reduce_stress mn mx q =
      Except.error "empty range for randrange" := by
    intro q
    rw [AgentStateManager.reduce_stress, if_pos h]
  refine ⟨?_, ?_, ?_⟩
  · intro red st2 hok
    rw [he r] at hok
    exact Except.noConfusion hok
  · rw [Op.apply, he r]
  · rw [execute_break_tool, he d.reduction_draw]

/-- Witness for C7 at the concrete inverted range 30 to 10. -/
theorem reduce_stress_min_gt_max_rejected_witness :
    (30 : Int) > 10 ∧
      ((∀ red st2, AgentStateManager.reduce_stress ⟨50, 0, 50, 300⟩ 30 10 5 ≠
          Except.ok (red, st2)) ∧
      Op.apply ⟨50, 0, 50, 300⟩ (Op.reduceStress 30 10 5) = ⟨50, 0, 50, 300⟩ ∧
      execute_break_tool ⟨50, 0, 50, 300⟩ 30 10 "s" ["m"] ⟨5, 50, 0⟩ =
        Except.error "empty range for randrange") :=
  ⟨by decide, reduce_stress_min_gt_max_rejected ⟨50, 0, 50, 300⟩ 30 10 5
    "s" ["m"] ⟨5, 50, 0⟩ (by decide)⟩

/-- Claim C8: one alert cooldown tick takes the alert level to max 0 of
the level minus one (a decrement of exactly one when positive, unchanged
at 0), leaving the stress untouched; one stress drift tick takes the
stress to min 100 of the stress plus one (an increment of exactly one when
below 100, unchanged at 100), leaving the alert level untouched. -/
theorem timer_ticks_spec (st : AgentStateManager)
    (hs : st.stress_level ≤ 100) (ha : 0 ≤ st.boss_alert_level) :
    st.auto_decrease_boss_alert_tick.boss_alert_level =
        max 0 (st.boss_alert_level - 1) ∧
    st.auto_decrease_boss_alert_tick.stress_level = st.stress_level ∧
    st.auto_increase_stress_tick.stress_level =
        min 100 (st.stress_level + 1) ∧
    st.auto_increase_stress_tick.boss_alert_level = st.boss_alert_level := by
  unfold AgentStateManager.auto_decrease_boss_alert_tick
    AgentStateManager.auto_increase_stress_tick
  by_cases hb : st.boss_alert_level > 0 <;>
    by_cases hc : st.stress_level < 100 <;>
      simp [hb, hc] <;> omega

/-- Witness for C8 at stress 100 and alert level 3: the cooldown tick
lowers the alert to 2 and the drift tick keeps the stress at 100. -/
theorem timer_ticks_spec_witness :
    (100 : Int) ≤ 100 ∧ (0 : Int) ≤ 3 ∧
      ((AgentStateManager.auto_decrease_boss_alert_tick
          ⟨100, 3, 50, 300⟩).boss_alert_level = max 0 ((3 : Int) - 1) ∧
      (AgentStateManager.auto_decrease_boss_alert_tick
          ⟨100, 3, 50, 300⟩).stress_level = 100 ∧
      (AgentStateManager.auto_increase_stress_tick
          ⟨100, 3, 50, 300⟩).stress_level = min 100 ((100 : Int) + 1) ∧
      (AgentStateManager.auto_increase_stress_tick
          ⟨100, 3, 50, 300⟩).boss_alert_level = 3) :=
  ⟨by decide, by decide, timer_ticks_spec ⟨100, 3, 50, 300⟩ (by decide)
    (by decide)⟩

theorem gaugeInv_step (st : AgentStateManager) (op : Op) (hv : op.valid)
    (h : GaugeInv st) : GaugeInv (Op.apply st op) := by
  unfold GaugeInv at h ⊢
  obtain ⟨h1, h2, h3, h4⟩ := h
  cases op with
  | reduceStress mn mx r =>
    obtain ⟨hv0, hv1, hv2⟩ := hv
    have hred : st.reduce_stress mn mx r =
        Except.ok (r,
          { st with stress_level := max 0 (st.stress_level - r) }) := by
      rw [AgentStateManager.reduce_stress, if_neg (by omega)]
    have happ : Op.apply st (Op.reduceStress mn mx r) =
        { st with stress_level := max 0 (st.stress_level - r) } := by
      rw [Op.apply, hred]
    rw [happ]
    refine ⟨?_, ?_, ?_, ?_⟩ <;> simp <;> omega
  | maybeRaiseAlert draw =>
    by_cases hd : draw ≤ st.boss_alertness
    · by_cases ha : st.boss_alert_level < 5
      · have happ : Op.apply st (Op.maybeRaiseAlert draw) =
            { st with boss_alert_level := st.boss_alert_level + 1 } := by
          rw [Op.apply, AgentStateManager.maybe_increase_boss_alert,
            if_pos hd, if_pos ha]
        rw [happ]
        refine ⟨?_, ?_, ?_, ?_⟩ <;> simp <;> omega
      · have happ : Op.apply st (Op.maybeRaiseAlert draw) = st := by
          rw [Op.apply, AgentStateManager.maybe_increase_boss_alert,
            if_pos hd, if_neg ha]
        rw [happ]
        exact ⟨h1, h2, h3, h4⟩
    · have happ : Op.apply st (Op.maybeRaiseAlert draw) = st := by
        rw [Op.apply, AgentStateManager.maybe_increase_boss_alert, if_neg hd]
      rw [happ]
      exact ⟨h1, h2, h3, h4⟩
  | snapshot => exact ⟨h1, h2, h3, h4⟩
  | stressTick =>
    by_cases hc : st.stress_level < 100
    · have happ : Op.apply st Op.stressTick =
          { st with stress_level := min 100 (st.stress_level + 1) } := by
        rw [Op.apply, AgentStateManager.auto_increase_stress_tick, if_pos hc]
      rw [happ]
      refine ⟨?_, ?_, ?_, ?_⟩ <;> simp <;> omega
    · have happ : Op.apply st Op.stressTick = st := by
        rw [Op.apply, AgentStateManager.auto_increase_stress_tick, if_neg hc]
      rw [happ]
      exact ⟨h1, h2, h3, h4⟩
  | alertTick =>
    by_cases hb : st.boss_alert_level > 0
    · have happ : Op.apply st Op.alertTick =
          { st with boss_alert_level := max 0 (st.boss_alert_level - 1) } := by
        rw [Op.apply, AgentStateManager.auto_decrease_boss_alert_tick,
          if_pos hb]
      rw [happ]
      refine ⟨?_, ?_, ?_, ?_⟩ <;> simp <;> omega
    · have happ : Op.apply st Op.alertTick = st := by
        rw [Op.apply, AgentStateManager.auto_decrease_boss_alert_tick,
          if_neg hb]
      rw [happ]
      exact ⟨h1, h2, h3, h4⟩

theorem runOps_preserves (st : AgentStateManager) (ops : List Op)
    (hv : ∀ op ∈ ops, op.valid) (h : GaugeInv st) :
    GaugeInv (runOps st ops) := by
  induction ops generalizing st with
  | nil => exact h
  | cons op rest ih =>
    rw [runOps]
    exact ih (Op.apply st op) (fun o ho => hv o (List.mem_cons_of_mem op ho))
      (gaugeInv_step st op (hv op (List.mem_cons_self op rest)) h)

/-- Claim C5: from the initial state (stress 50, alert level 0) of any
configuration, every sequence of valid operations (stress reductions with
a nonnegative range and a draw in it, alert rolls with a randint draw,
snapshots, stress drift ticks, alert cooldown ticks) keeps both gauges in
bounds; since every prefix of such a sequence is again such a sequence,
the bounds hold after every single operation. -/
theorem state_invariants_hold (a c : Int) (ops : List Op)
    (hv : ∀ op ∈ ops, op.valid) :
    GaugeInv (runOps (AgentStateManager.make a c) ops) := by
  refine runOps_preserves _ ops hv ?_
  unfold GaugeInv AgentStateManager.make
  norm_num

/-- Witness for C5 on a concrete five operation sequence. -/
theorem state_invariants_hold_witness :
    (∀ op ∈ [Op.reduceStress 10 30 12, Op.maybeRaiseAlert 40, Op.stressTick,
        Op.alertTick, Op.snapshot], op.valid) ∧
      GaugeInv (runOps (AgentStateManager.make 50 300)
        [Op.reduceStress 10 30 12, Op.maybeRaiseAlert 40, Op.stressTick,
          Op.alertTick, Op.snapshot]) :=
  ⟨by decide, state_invariants_hold 50 300 _ (by decide)⟩

theorem break_step_alert_zero (st : AgentStateManager)
    (c : Int × Int × BreakDraws) (h0 : st.boss_alertness = 0)
    (ha : st.boss_alert_level = 0) (hd : 1 ≤ c.2.2.alert_draw) :
    (break_step st c).boss_alert_level = 0 ∧
      (break_step st c).boss_alertness = 0 := by
  have hroll : ∀ s1 : AgentStateManager, s1.boss_alertness = 0 →
      s1.maybe_increase_boss_alert c.2.2.alert_draw = (false, s1) := by
    intro s1 h1
    rw [AgentStateManager.maybe_increase_boss_alert, h1, if_neg (by omega)]
  by_cases hr : c.1 > c.2.1
  · rw [break_step, execute_break_tool, AgentStateManager.reduce_stress,
      if_pos hr]
    exact ⟨ha, h0⟩
  · rw [break_step, execute_break_tool, AgentStateManager.reduce_stress,
      if_neg hr]
    have hgoal : ∀ s1 : AgentStateManager, s1.boss_alertness = 0 →
        s1.boss_alert_level = 0 →
        (s1.maybe_increase_boss_alert c.2.2.alert_draw).2.boss_alert_level
            = 0 ∧
          (s1.maybe_increase_boss_alert c.2.2.alert_draw).2.boss_alertness
            = 0 := by
      intro s1 h1 h2
      rw [hroll s1 h1]
      exact ⟨h2, h1⟩
    exact hgoal
      { st with stress_level := max 0 (st.stress_level - c.2.2.reduction_draw) }
      h0 ha

/-- Claim C9: when the state is configured with alertness 0 and its alert
level is 0, any sequence of executor invocations whose alert draws come
from randint(1, 100) leaves the alert level at 0, and every penalty gate
evaluation performed at the entry of those invocations is false, so the 20
second delay never fires. -/
theorem alertness_zero_never_alerts (st : AgentStateManager)
    (calls : List (Int × Int × BreakDraws))
    (h0 : st.boss_alertness = 0) (ha : st.boss_alert_level = 0)
    (hd : ∀ call ∈ calls, 1 ≤ call.2.2.alert_draw) :
    (run_breaks st calls).boss_alert_level = 0 ∧
      ∀ b ∈ break_gate_flags st calls, b = false := by
  induction calls generalizing st with
  | nil => exact ⟨ha, by intro b hb; cases hb⟩
  | cons c rest ih =>
    have hstep := break_step_alert_zero st c h0 ha
      (hd c (List.mem_cons_self c rest))
    have ihr := ih (break_step st c) hstep.2 hstep.1
      (fun call hc => hd call (List.mem_cons_of_mem c hc))
    refine ⟨by rw [run_breaks]; exact ihr.1, ?_⟩
    intro b hb
    rw [break_gate_flags] at hb
    rcases List.mem_cons.mp hb with h | h
    · rw [h]
      simp [AgentStateManager.apply_boss_penalty_if_needed, ha]
    · exact ihr.2 b h

/-- Witness for C9 on a concrete state (alertness 0) and two invocations,
the second with an inverted range. -/
theorem alertness_zero_never_alerts_witness :
    ((⟨50, 0, 0, 300⟩ : AgentStateManager).boss_alertness = 0 ∧
      (⟨50, 0, 0, 300⟩ : AgentStateManager).boss_alert_level = 0 ∧
      ∀ call ∈ [((10 : Int), (30 : Int), (⟨12, 77, 0⟩ : BreakDraws)),
        (30, 10, ⟨5, 1, 2⟩)], 1 ≤ call.2.2.alert_draw) ∧
    ((run_breaks ⟨50, 0, 0, 300⟩
        [((10 : Int), (30 : Int), (⟨12, 77, 0⟩ : BreakDraws)),
          (30, 10, ⟨5, 1, 2⟩)]).boss_alert_level = 0 ∧
      ∀ b ∈ break_gate_flags ⟨50, 0, 0, 300⟩
        [((10 : Int), (30 : Int), (⟨12, 77, 0⟩ : BreakDraws)),
          (30, 10, ⟨5, 1, 2⟩)], b = false) :=
  ⟨⟨rfl, rfl, by decide⟩,
    alertness_zero_never_alerts ⟨50, 0, 0, 300⟩
      [((10 : Int), (30 : Int), (⟨12, 77, 0⟩ : BreakDraws)),
        (30, 10, ⟨5, 1, 2⟩)] rfl rfl (by decide)⟩

/-- Claim C6: within one executor invocation the penalty gate is evaluated
once, on the entry state, as the first of the four state steps; with the
alert level within its bound it fires exactly when the level is 5 at call
time, and the transcript of the invocation is always the fixed order
penalty gate, stress reduction, alert roll, snapshot. The recorded gate
flag is a function of the entry state alone, so nothing after the gate
(including the roll that may change the level) is ever consulted for it. -/
theorem executor_gate_once_and_order (st : AgentStateManager)
    (mn mx : Int) (d : BreakDraws) (hr : mn ≤ mx)
    (ha5 : st.boss_alert_level ≤ 5) :
    (st.apply_boss_penalty_if_needed = true ↔ st.boss_alert_level = 5) ∧
    ∃ raised stress boss,
      execute_break_steps st mn mx d =
        Except.ok [ExecStep.penaltyGate st.apply_boss_penalty_if_needed,
          ExecStep.stressReduction d.reduction_draw,
          ExecStep.alertRoll raised,
          ExecStep.stateSnapshot stress boss] := by
  constructor
  · rw [AgentStateManager.apply_boss_penalty_if_needed]
    constructor
    · intro h
      have hge := of_decide_eq_true h
      omega
    · intro h
      exact decide_eq_true (by omega)
  · have hred : st.reduce_stress mn mx d.reduction_draw =
        Except.ok (d.reduction_draw,
          { st with
            stress_level := max 0 (st.stress_level - d.reduction_draw) }) := by
      rw [AgentStateManager.reduce_stress, if_neg (by omega)]
    exact ⟨_, _, _, by rw [execute_break_steps, hred]⟩

/-- Witness for C6 at a concrete state with alert level 5: the gate flag
is true and the transcript has the four steps in order. -/
theorem executor_gate_once_and_order_witness :
    (10 : Int) ≤ 30 ∧
      (⟨50, 5, 50, 300⟩ : AgentStateManager).boss_alert_level ≤ 5 ∧
      (((⟨50, 5, 50, 300⟩ : AgentStateManager).apply_boss_penalty_if_needed
          = true ↔
        (⟨50, 5, 50, 300⟩ : AgentStateManager).boss_alert_level = 5) ∧
      ∃ raised stress boss,
        execute_break_steps ⟨50, 5, 50, 300⟩ 10 30 ⟨12, 40, 0⟩ =
          Except.ok [ExecStep.penaltyGate
              (⟨50, 5, 50, 300⟩ :
                AgentStateManager).apply_boss_penalty_if_needed,
            ExecStep.stressReduction 12,
            ExecStep.alertRoll raised,
            ExecStep.stateSnapshot stress boss]) :=
  ⟨by decide, by decide,
    executor_gate_once_and_order ⟨50, 5, 50, 300⟩ 10 30 ⟨12, 40, 0⟩
      (by decide) (by decide)⟩

theorem maybe_increase_preserves_stress (s : AgentStateManager)
    (draw : Int) :
    (s.maybe_increase_boss_alert draw).2.stress_level = s.stress_level := by
  rw [AgentStateManager.maybe_increase_boss_alert]
  split_ifs <;> rfl

/-- Claim C1 is false on the code: the value execute_break_tool hands back
is not a structured bundle carrying the nominal reduction and the raised
flag with narrative text excluded. At stress 0, two invocations that
differ only in the reduction draw (10 against 20) return identical
values, so the returned value does not determine the reduction; and two
invocations that differ only in the narrative message choice return
different values, so the narrative text is part of the executor result. -/
theorem executor_bundle_counterexample :
    (execute_break_tool ⟨0, 0, 0, 300⟩ 10 30 "Took a brief general break"
        ["Stepped away from the keyboard for a moment of peace.",
          "Just needed a quick breather to reset."] ⟨10, 100, 0⟩ =
      execute_break_tool ⟨0, 0, 0, 300⟩ 10 30 "Took a brief general break"
        ["Stepped away from the keyboard for a moment of peace.",
          "Just needed a quick breather to reset."] ⟨20, 100, 0⟩) ∧
    (10 : Int) ≠ 20 ∧
    execute_break_tool ⟨0, 0, 0, 300⟩ 10 30 "Took a brief general break"
        ["Stepped away from the keyboard for a moment of peace.",
          "Just needed a quick breather to reset."] ⟨10, 100, 0⟩ ≠
      execute_break_tool ⟨0, 0, 0, 300⟩ 10 30 "Took a brief general break"
        ["Stepped away from the keyboard for a moment of peace.",
          "Just needed a quick breather to reset."] ⟨10, 100, 1⟩ := by
  decide

/-- Claim C1, amended: with a valid reduction range the executor returns
a one element MCP text content list rendered by format_response from the
final snapshot, together with the successor state; the chosen narrative
message (with the noticed suffix exactly when the alert roll fired) is
embedded in the text, and the nominal reduction and the raised flag are
not separate components of the returned value (the reduction enters only
through the clamped stress in the snapshot). -/
theorem executor_returns_rendered_text (st : AgentStateManager)
    (mn mx : Int) (summary : String) (msgs : List String) (d : BreakDraws)
    (hr : mn ≤ mx) :
    ∃ (raised : Bool) (st2 : AgentStateManager),
      execute_break_tool st mn mx summary msgs d =
        Except.ok
          (format_response summary
            (msgs.getD d.message_index "" ++
              (if raised then " (Your boss seems to have noticed...)"
               else "")) st2.stress_level st2.boss_alert_level, st2) ∧
      st2.stress_level = max 0 (st.stress_level - d.reduction_draw) := by
  have hred : st.reduce_stress mn mx d.reduction_draw =
      Except.ok (d.reduction_draw,
        { st with
          stress_level := max 0 (st.stress_level - d.reduction_draw) }) := by
    rw [AgentStateManager.reduce_stress, if_neg (by omega)]
  refine ⟨(AgentStateManager.maybe_increase_boss_alert
      { st with stress_level := max 0 (st.stress_level - d.reduction_draw) }
      d.alert_draw).1,
    (AgentStateManager.maybe_increase_boss_alert
      { st with stress_level := max 0 (st.stress_level - d.reduction_draw) }
      d.alert_draw).2, ?_, ?_⟩
  · rw [execute_break_tool, hred]
    rfl
  · exact maybe_increase_preserves_stress _ _

/-- Witness for the amended C1 at a concrete state and draws. -/
theorem executor_returns_rendered_text_witness :
    (10 : Int) ≤ 30 ∧
      ∃ (raised : Bool) (st2 : AgentStateManager),
        execute_break_tool ⟨50, 0, 50, 300⟩ 10 30 "s" ["m1", "m2"]
            ⟨12, 40, 1⟩ =
          Except.ok
            (format_response "s"
              (["m1", "m2"].getD 1 "" ++
                (if raised then " (Your boss seems to have noticed...)"
                 else "")) st2.stress_level st2.boss_alert_level, st2) ∧
        st2.stress_level = max 0 ((50 : Int) - 12) :=
  ⟨by decide, executor_returns_rendered_text ⟨50, 0, 50, 300⟩ 10 30 "s"
    ["m1", "m2"] ⟨12, 40, 1⟩ (by decide)⟩

theorem format_text_splitLines (summary creative : String) (s b : Int)
    (hsum : NoNewline summary.data) (hcre : NoNewline creative.data) :
    splitLines (creative ++ "\n\n" ++ "Break Summary: " ++ summary ++ "\n" ++
        "Stress Level: " ++ pyIntStr s ++ "\n" ++
        "Boss Alert Level: " ++ pyIntStr b).data =
      [creative.data, [], "Break Summary: ".data ++ summary.data,
        ("Stress Level: " ++ pyIntStr s).data,
        ("Boss Alert Level: " ++ pyIntStr b).data] := by
  have hshape : (creative ++ "\n\n" ++ "Break Summary: " ++ summary ++
      "\n" ++ "Stress Level: " ++ pyIntStr s ++ "\n" ++
      "Boss Alert Level: " ++ pyIntStr b).data =
      creative.data ++ '\x0a' :: '\x0a' ::
        (("Break Summary: ".data ++ summary.data) ++ '\x0a' ::
          (("Stress Level: ".data ++ (pyIntStr s).data) ++ '\x0a' ::
            ("Boss Alert Level: ".data ++ (pyIntStr b).data))) := by
    simp only [String.data_append, List.append_assoc, List.cons_append,
      List.nil_append,
      show ("\n\n" : String).data = ['\x0a', '\x0a'] from rfl,
      show ("\n" : String).data = ['\x0a'] from rfl]
  rw [hshape, splitLines_five_block _ _ _ _ hcre
    (noNewline_append _ _ (by decide) hsum)
    (noNewline_append _ _ (by decide) (pyIntStr_noNewline s))
    (noNewline_append _ _ (by decide) (pyIntStr_noNewline b))]
  rfl

/-- Claim C10: with a valid range, and with the summary and the creative
messages free of newline characters (true of all eight break tools of the
source), a break tool invocation returns a one element list holding a
single text item whose lines end with exactly the stress line and the
alert line rendered from the step 4 snapshot of the same invocation. -/
theorem break_tool_last_two_lines (st : AgentStateManager) (mn mx : Int)
    (summary : String) (msgs : List String) (d : BreakDraws)
    (hr : mn ≤ mx) (hsum : NoNewline summary.data)
    (hmsgs : ∀ m ∈ msgs, NoNewline m.data) :
    ∃ (txt : String) (st2 : AgentStateManager) (front : List (List Char)),
      execute_break_tool st mn mx summary msgs d =
        Except.ok ([{ type := "text", text := txt }], st2) ∧
      splitLines txt.data =
        front ++ [("Stress Level: " ++ pyIntStr st2.stress_level).data,
          ("Boss Alert Level: " ++ pyIntStr st2.boss_alert_level).data] := by
  have hred : st.reduce_stress mn mx d.reduction_draw =
      Except.ok (d.reduction_draw,
        { st with
          stress_level := max 0 (st.stress_level - d.reduction_draw) }) := by
    rw [AgentStateManager.reduce_stress, if_neg (by omega)]
  have hgetd : NoNewline (msgs.getD d.message_index "").data := by
    rw [List.getD_eq_getElem?_getD]
    rcases hq : msgs[d.message_index]? with _ | m
    · exact (by decide : NoNewline ("" : String).data)
    · exact hmsgs m (List.getElem?_mem hq)
  have hcre : NoNewline ((msgs.getD d.message_index "" ++
      (if (AgentStateManager.maybe_increase_boss_alert
          { st with
            stress_level := max 0 (st.stress_level - d.reduction_draw) }
          d.alert_draw).1 then " (Your boss seems to have noticed...)"
        else "")) : String).data := by
    refine noNewline_append _ _ hgetd ?_
    cases (AgentStateManager.maybe_increase_boss_alert
        { st with
          stress_level := max 0 (st.stress_level - d.reduction_draw) }
        d.alert_draw).1 <;> decide
  refine ⟨(msgs.getD d.message_index "" ++
      (if (AgentStateManager.maybe_increase_boss_alert
          { st with
            stress_level := max 0 (st.stress_level - d.reduction_draw) }
          d.alert_draw).1 then " (Your boss seems to have noticed...)"
        else "")) ++ "\n\n" ++ "Break Summary: " ++ summary ++ "\n" ++
      "Stress Level: " ++ pyIntStr
        (AgentStateManager.maybe_increase_boss_alert
          { st with
            stress_level := max 0 (st.stress_level - d.reduction_draw) }
          d.alert_draw).2.stress_level ++ "\n" ++
      "Boss Alert Level: " ++ pyIntStr
        (AgentStateManager.maybe_increase_boss_alert
          { st with
            stress_level := max 0 (st.stress_level - d.reduction_draw) }
          d.alert_draw).2.boss_alert_level,
    (AgentStateManager.maybe_increase_boss_alert
      { st with
        stress_level := max 0 (st.stress_level - d.reduction_draw) }
      d.alert_draw).2,
    [(msgs.getD d.message_index "" ++
      (if (AgentStateManager.maybe_increase_boss_alert
          { st with
            stress_level := max 0 (st.stress_level - d.reduction_draw) }
          d.alert_draw).1 then " (Your boss seems to have noticed...)"
        else "") : String).data, [],
      "Break Summary: ".data ++ summary.data], ?_, ?_⟩
  · rw [execute_break_tool, hred]
    rfl
  · exact format_text_splitLines summary _ _ _ hsum hcre

/-- Witness for C10 at the take_a_break profile of the source. -/
theorem break_tool_last_two_lines_witness :
    (10 : Int) ≤ 30 ∧
    NoNewline ("Took a brief general break" : String).data ∧
    (∀ m ∈ (["Stepped away from the keyboard for a moment of peace.",
        "Just needed a quick breather to reset.",
        "Short break taken - feeling refreshed!",
        "Paused for a moment to collect my thoughts."] : List String),
      NoNewline m.data) ∧
    ∃ (txt : String) (st2 : AgentStateManager) (front : List (List Char)),
      execute_break_tool ⟨50, 0, 50, 300⟩ 10 30 "Took a brief general break"
          ["Stepped away from the keyboard for a moment of peace.",
            "Just needed a quick breather to reset.",
            "Short break taken - feeling refreshed!",
            "Paused for a moment to collect my thoughts."] ⟨12, 40, 0⟩ =
        Except.ok ([{ type := "text", text := txt }], st2) ∧
      splitLines txt.data =
        front ++ [("Stress Level: " ++ pyIntStr st2.stress_level).data,
          ("Boss Alert Level: " ++ pyIntStr st2.boss_alert_level).data] :=
  ⟨by decide, by decide, by decide,
    break_tool_last_two_lines ⟨50, 0, 50, 300⟩ 10 30
      "Took a brief general break"
      ["Stepped away from the keyboard for a moment of peace.",
        "Just needed a quick breather to reset.",
        "Short break taken - feeling refreshed!",
        "Paused for a moment to collect my thoughts."] ⟨12, 40, 0⟩
      (by decide) (by decide) (by decide)⟩
